import Mathlib

/-!
# Verification of the pktgen benchmark orchestrator

Shallow embedding of the experiment orchestrator in
`src/pkt_generation/packet_generator.py` (a Kubernetes DPDK pktgen/testpmd
benchmark driver), together with proofs about the behaviour of its pure
fragments: command validation, CPU-core splitting, the sampling loop,
artifact collection, flow-profile rendering, log/CSV parsing, the sanity
verb and the experiment-identifier derivation.

Python integers are modelled as `Int` (or `Nat` where the source value is
known non-negative), Python lists as `List`, raised exceptions as the
`Except`/`Option` error branch, and dictionaries as association lists.
-/

namespace PktGen

/-! ## Python string primitives used throughout the source -/

/-- ASCII whitespace as recognised by Python `str.strip()` and the regex
class used in the source (space, tab, newline, carriage return, vertical
tab, form feed). -/
def isPySpace (c : Char) : Bool :=
  c == ' ' || c == '\t' || c == '\n' || c == '\r' || c == '\x0b' || c == '\x0c'

/-- Python `str.strip()`. -/
def pyStrip (s : String) : String :=
  String.mk (((s.data.dropWhile isPySpace).reverse.dropWhile isPySpace).reverse)

/-- Match `needle` at the head of `hay`, returning the rest on success. -/
def dropLit : List Char → List Char → Option (List Char)
  | [], cs => some cs
  | _ :: _, [] => none
  | a :: as, c :: cs => if a == c then dropLit as cs else none

/-- Occurrence of `needle.data` somewhere in `hay`. -/
def listHasSub (needle : List Char) : List Char → Bool
  | [] => (dropLit needle []).isSome
  | c :: t => (dropLit needle (c :: t)).isSome || listHasSub needle t

/-- Python `needle in hay` on strings. -/
def pyIn (needle hay : String) : Bool :=
  listHasSub needle.data hay.data

/-- Digit run of a Python integer literal after the first digit:
further digits, with single underscores allowed between digits. -/
def pyDigitsAux : List Char → Bool
  | [] => true
  | '_' :: c :: rest => c.isDigit && pyDigitsAux rest
  | '_' :: [] => false
  | c :: rest => c.isDigit && pyDigitsAux rest

/-- Whole digit run of a Python integer literal (non-empty, starts with a
digit, single underscores allowed between digits). -/
def pyDigitsOk : List Char → Bool
  | [] => false
  | c :: rest => c.isDigit && pyDigitsAux rest

/-- Numeric value of a digit run, ignoring underscores. -/
def digitsVal (cs : List Char) : Nat :=
  cs.foldl (fun acc c => if c.isDigit then acc * 10 + (c.toNat - 48) else acc) 0

/-- Python `int(str)`: strip whitespace, optional sign, digits with
optional single underscores between digits; `none` models `ValueError`. -/
def pyInt? (s : String) : Option Int :=
  match (pyStrip s).data with
  | '+' :: rest => if pyDigitsOk rest then some (Int.ofNat (digitsVal rest)) else none
  | '-' :: rest => if pyDigitsOk rest then some (-(Int.ofNat (digitsVal rest))) else none
  | rest => if pyDigitsOk rest then some (Int.ofNat (digitsVal rest)) else none

/-- Python slicing `s[:n]` on strings. -/
def pyTake (n : Nat) (s : String) : String :=
  String.mk (s.data.take n)

/-- Python `str.split(sep)` for a one-character separator, on the
character list: `"".split(sep) = [""]`, adjacent separators yield empty
fields. -/
def splitOnChar (sep : Char) : List Char → List (List Char)
  | [] => [[]]
  | c :: rest =>
      let r := splitOnChar sep rest
      if c == sep then [] :: r
      else
        match r with
        | h :: t => (c :: h) :: t
        | [] => [[c]]

/-- Python `s.split(sep)` for a one-character separator. -/
def pySplit (sep : Char) (s : String) : List String :=
  (splitOnChar sep s.data).map String.mk

/-! ## `is_power_of_two` and the `start_generator` validation block

Source line 3138: `def is_power_of_two(n): return n > 0 and (n & (n - 1)) == 0`
and the argument checks at source lines 3493-3508, which run before
`main_start_generator` is invoked (so before any experiment work). -/

/-- `is_power_of_two` from the source.  Because Python `and` short-circuits,
the bitwise expression is only evaluated for `n > 0`, where both operands
are non-negative, so Python integer `&` agrees with `Nat` `&&&` on
`n.toNat`. -/
def is_power_of_two (n : Int) : Bool :=
  decide (0 < n) && decide (n.toNat &&& (n.toNat - 1) = 0)

/-- The subset of the `start_generator` argparse namespace that the
validation block and the generator driver read.  `control_port` holds the
value of `int(args.control_port)`; `tx_num_core`, `rx_num_core` and
`sample_count` default to `None`. -/
structure StartArgs where
  control_port : Int
  tx_num_core : Option Int
  rx_num_core : Option Int
  sample_interval : Int
  duration : Int
  txd : Int
  rxd : Int
  sample_count : Option Int
  latency : Bool

/-- The `start_generator` validation block (source lines 3493-3508): a
chain of checks, each raising `ValueError` (modelled by `.error`) with the
message of the corresponding `raise`. -/
def validate_start_generator (a : StartArgs) : Except String Unit :=
  if ¬ (1024 ≤ a.control_port ∧ a.control_port ≤ 65535) then
    .error "Control port is out of valid range."
  else if (match a.tx_num_core with | some n => decide (n < 1) | none => false : Bool) then
    .error "--tx_num_core must be >= 1 if specified."
  else if (match a.rx_num_core with | some n => decide (n < 1) | none => false : Bool) then
    .error "--rx_num_core must be >= 1 if specified."
  else if a.sample_interval < 1 then
    .error "--sample-interval must be >= 1 second."
  else if a.duration ≤ 0 then
    .error "--duration must be > 0."
  else if a.sample_interval ≥ a.duration then
    .error "--sample-interval must be less than --duration."
  else if ¬ is_power_of_two a.txd then
    .error "--txd must be a power of 2."
  else if ¬ is_power_of_two a.rxd then
    .error "--rxd must be a power of 2."
  else
    .ok ()

/-- Whether a validation outcome is a raised error. -/
def isFailure : Except String Unit → Bool
  | .error _ => true
  | .ok _ => false

/-- For positive `m`, the bit trick `m &&& (m - 1) = 0` recognises exactly
the powers of two. -/
theorem land_pred_eq_zero_iff (m : Nat) (hm : 0 < m) :
    m &&& (m - 1) = 0 ↔ ∃ k : Nat, m = 2 ^ k := by
  constructor
  · intro h
    refine ⟨m.log2, ?_⟩
    by_contra hne
    have hm0 : m ≠ 0 := Nat.pos_iff_ne_zero.mp hm
    have h1 : 2 ^ m.log2 ≤ m := Nat.log2_self_le hm0
    have h2 : m < 2 ^ (m.log2 + 1) := Nat.lt_log2_self
    have h3 : 2 ^ m.log2 < m := lt_of_le_of_ne h1 (fun e => hne e.symm)
    have hp : 0 < 2 ^ m.log2 := Nat.pos_pow_of_pos _ (by omega)
    have hpow : 2 ^ (m.log2 + 1) = 2 * 2 ^ m.log2 := by
      rw [Nat.pow_succ]; ring
    have hdiv1 : m / 2 ^ m.log2 = 1 := by
      have hle : 1 ≤ m / 2 ^ m.log2 := (Nat.one_le_div_iff hp).mpr h1
      have hlt : m / 2 ^ m.log2 < 2 := by
        rw [Nat.div_lt_iff_lt_mul hp]
        omega
      omega
    have hdiv2 : (m - 1) / 2 ^ m.log2 = 1 := by
      have hle : 1 ≤ (m - 1) / 2 ^ m.log2 := (Nat.one_le_div_iff hp).mpr (by omega)
      have hlt : (m - 1) / 2 ^ m.log2 < 2 := by
        rw [Nat.div_lt_iff_lt_mul hp]
        omega
      omega
    have ht1 : m.testBit m.log2 = true := by
      rw [Nat.testBit_to_div_mod, hdiv1]; rfl
    have ht2 : (m - 1).testBit m.log2 = true := by
      rw [Nat.testBit_to_div_mod, hdiv2]; rfl
    have : (m &&& (m - 1)).testBit m.log2 = true := by
      rw [Nat.testBit_and, ht1, ht2]; rfl
    rw [h, Nat.zero_testBit] at this
    exact Bool.false_ne_true this
  · rintro ⟨k, rfl⟩
    apply Nat.eq_of_testBit_eq
    intro i
    rw [Nat.testBit_and, Nat.testBit_two_pow, Nat.testBit_two_pow_sub_one,
      Nat.zero_testBit]
    by_cases h : k = i
    · subst h; simp
    · simp [h]

/-- `is_power_of_two` accepts exactly the positive powers of two. -/
theorem is_power_of_two_iff (n : Int) :
    is_power_of_two n = true ↔ 0 < n ∧ ∃ k : Nat, n = 2 ^ k := by
  unfold is_power_of_two
  rw [Bool.and_eq_true, decide_eq_true_iff, decide_eq_true_iff]
  constructor
  · rintro ⟨hpos, hbit⟩
    have hpos' : 0 < n.toNat := by omega
    obtain ⟨k, hk⟩ := (land_pred_eq_zero_iff n.toNat hpos').mp hbit
    refine ⟨hpos, k, ?_⟩
    have := Int.toNat_of_nonneg (le_of_lt hpos)
    rw [← this, hk]
    push_cast
    ring
  · rintro ⟨hpos, k, hk⟩
    refine ⟨hpos, ?_⟩
    have hto : n.toNat = 2 ^ k := by
      have : ((2 : Int) ^ k).toNat = 2 ^ k := by
        rw [show ((2 : Int) ^ k) = ((2 ^ k : Nat) : Int) by push_cast; ring]
        exact Int.toNat_natCast _
      rw [hk, this]
    rw [hto]
    exact (land_pred_eq_zero_iff _ (Nat.pos_pow_of_pos _ (by omega))).mpr ⟨k, rfl⟩

theorem aux_validate_interval (a : StartArgs) (h : a.sample_interval ≥ a.duration) :
    isFailure (validate_start_generator a) = true := by
  unfold validate_start_generator
  repeat' split
  all_goals first | rfl | omega | simp_all

theorem aux_validate_txd (a : StartArgs) (h : is_power_of_two a.txd = false) :
    isFailure (validate_start_generator a) = true := by
  unfold validate_start_generator
  repeat' split
  all_goals first | rfl | omega | simp_all

theorem aux_validate_rxd (a : StartArgs) (h : is_power_of_two a.rxd = false) :
    isFailure (validate_start_generator a) = true := by
  unfold validate_start_generator
  repeat' split
  all_goals first | rfl | omega | simp_all

/-- **C5.** `start_generator` refuses to start (the pre-run validation block
raises `ValueError`) whenever `sample_interval >= duration` or whenever
`txd` or `rxd` is not a power of two, and `is_power_of_two n` returns true
exactly when `n` is positive and equal to `2 ^ k` for some `k >= 0`. -/
theorem C5_validation_refusal :
    (∀ a : StartArgs, a.sample_interval ≥ a.duration →
        isFailure (validate_start_generator a) = true)
  ∧ (∀ a : StartArgs, is_power_of_two a.txd = false →
        isFailure (validate_start_generator a) = true)
  ∧ (∀ a : StartArgs, is_power_of_two a.rxd = false →
        isFailure (validate_start_generator a) = true)
  ∧ (∀ n : Int, is_power_of_two n = true ↔ 0 < n ∧ ∃ k : Nat, n = 2 ^ k) :=
  ⟨aux_validate_interval, aux_validate_txd, aux_validate_rxd, is_power_of_two_iff⟩

/-- Witness for C5 at concrete inputs: `sample-interval = duration = 60`
is refused, a non-power-of-two `txd = 1000` is refused, and
`is_power_of_two` holds of `1024 = 2 ^ 10`. -/
theorem C5_validation_refusal_witness :
    isFailure (validate_start_generator ⟨22022, none, none, 60, 60, 2048, 2048, none, false⟩) = true
  ∧ isFailure (validate_start_generator ⟨22022, none, none, 10, 60, 1000, 2048, none, false⟩) = true
  ∧ is_power_of_two 1024 = true :=
  ⟨C5_validation_refusal.1 _ (by decide),
   C5_validation_refusal.2.1 _ (by decide),
   (C5_validation_refusal.2.2.2 1024).mpr ⟨by decide, 10, by decide⟩⟩

/-! ## Generator core split (C2)

Source lines 2242-2304, the core-split portion of
`start_pktgen_on_tx_pods.run_for_pod`.  Cores are the whitespace-split
tokens of the NUMA string, i.e. strings, and `sorted` on them is Python
string sort (lexicographic by code point). -/

inductive SplitOutcome where
  /-- The worker logs a warning and returns the `None` failure sentinel. -/
  | refused
  /-- `tx_cores[0]` is evaluated on an empty list: `IndexError` escapes the worker. -/
  | indexError
  /-- Successful split: the main core plus the tx- and rx-worker core lists. -/
  | ok (main : String) (tx rx : List String)
  deriving DecidableEq, Repr

/-- Lexicographic comparison by code point, Python string `<=`. -/
def charListLe : List Char → List Char → Bool
  | [], _ => true
  | _ :: _, [] => false
  | a :: as, b :: bs =>
      if a.toNat < b.toNat then true
      else if b.toNat < a.toNat then false
      else charListLe as bs

/-- Python `a <= b` on strings. -/
def strLe (a b : String) : Bool := charListLe a.data b.data

/-- Stable insertion of a string into a sorted list: `a` goes after every
element `≤ a`. -/
def insertStr (a : String) : List String → List String
  | [] => [a]
  | b :: t => if strLe b a then b :: insertStr a t else a :: b :: t

/-- Python `sorted` on strings (stable, ascending, lexicographic by code
point), as a stable insertion sort. -/
def sortStr (xs : List String) : List String :=
  xs.foldr insertStr []

theorem insertStr_perm (a : String) (l : List String) :
    (insertStr a l).Perm (a :: l) := by
  induction l with
  | nil => exact List.Perm.refl _
  | cons b t ih =>
    unfold insertStr
    split
    · exact (ih.cons b).trans (List.Perm.swap a b t)
    · exact List.Perm.refl _

theorem sortStr_perm (xs : List String) : (sortStr xs).Perm xs := by
  induction xs with
  | nil => exact List.Perm.refl _
  | cons a t ih =>
    unfold sortStr
    exact (insertStr_perm a (t.foldr insertStr [])).trans (ih.cons a)

theorem sortStr_length (xs : List String) : (sortStr xs).length = xs.length :=
  (sortStr_perm xs).length_eq

/-- `txrx_cores` (source lines 2269-2271): the integer half of
`total_cores - 1`, decremented once more when it is odd, i.e. rounded down
to an even number. -/
def evenHalf (n : Nat) : Nat :=
  if (n - 1) / 2 % 2 ≠ 0 then (n - 1) / 2 - 1 else (n - 1) / 2

/-- The core-split logic of `run_for_pod` (source lines 2242-2302): refusal
checks (`total_usable = numa_cores.tail.length`,
`min_required = ports_needed * cores_per_port` with `ports_needed = 2`
in latency mode and `cores_per_port = 2`), the (unreachable) two-core
shared branch, the halving of the usable cores with `txrx_cores =
evenHalf total_cores`, and the `IndexError` raised by `tx_cores[0]` when
`txrx_cores` came out as `0` in the non-latency branch.
`tx = sorted([numa_cores[i+1] for i in range(txrx_cores)])` is
`sortStr (take txrx_cores (drop 1 cores))`, and
`rx = sorted([numa_cores[txrx_cores+1+i] for i in range(txrx_cores)])` is
`sortStr (take txrx_cores (drop (txrx_cores+1) cores))`; both index
computations stay in range because `2 * txrx_cores ≤ total_cores - 1`. -/
def run_for_pod_split (latency : Bool) (numa_cores : List String) : SplitOutcome :=
  if numa_cores.length < 2 then .refused
  else if numa_cores.tail.length < (if latency then 2 else 1) * 2 then .refused
  else if numa_cores.length = 2 then
    .ok (numa_cores.headD "") [numa_cores.getD 1 ""] [numa_cores.getD 1 ""]
  else if latency then
    .ok (numa_cores.headD "")
      (sortStr ((numa_cores.drop 1).take (evenHalf numa_cores.length)))
      (sortStr ((numa_cores.drop (evenHalf numa_cores.length + 1)).take
        (evenHalf numa_cores.length)))
  else if (sortStr ((numa_cores.drop 1).take (evenHalf numa_cores.length))).isEmpty then
    .indexError
  else
    .ok (numa_cores.headD "")
      (sortStr ((numa_cores.drop 1).take (evenHalf numa_cores.length)))
      (sortStr ((numa_cores.drop (evenHalf numa_cores.length + 1)).take
        (evenHalf numa_cores.length)))

/-- **C2 counterexample.** The claim predicts that a 2-core workload shares
the second core between tx and rx, and that with `|C| = 7` and
`h = (7-1)/2 = 3` the tx set is the three cores `C[1..4] = [1, 2, 3]`.
The code instead refuses the 2-core workload (`total_usable = 1 <
min_required = 2`, so the shared-core branch is unreachable) and rounds the
half down to the even number 2, assigning `tx = [1, 2]`, `rx = [3, 4]`. -/
theorem C2_core_split_counterexample :
    run_for_pod_split false ["0", "1"] = .refused
  ∧ run_for_pod_split false ["0", "1", "2", "3", "4", "5", "6"]
      = .ok "0" ["1", "2"] ["3", "4"]
  ∧ (["1", "2"] : List String) ≠ ["1", "2", "3"] := by
  refine ⟨by decide, by decide, by decide⟩

/-- **C2 (amended).** Unidirectional (non-latency) generator core split for
an allowed-core list `C`: a workload with `|C| ≤ 2` is refused (including
`|C| = 2`, for which the shared-core branch is dead code); with
`h = (|C|-1)/2` rounded *down to an even number*, a workload with
`|C| ∈ {3, 4}` (where `h = 0`) fails with an `IndexError`; otherwise
`main = C[0]`, `tx_cores` are the `h` cores `C[1..1+h]` (sorted) and
`rx_cores` the next `h` cores `C[1+h..1+2h]` (sorted), leaving
`|C| - 1 - 2h` cores idle. -/
theorem C2_core_split_amended (cores : List String) :
    (cores.length ≤ 2 → run_for_pod_split false cores = .refused)
  ∧ (cores.length = 3 ∨ cores.length = 4 →
      run_for_pod_split false cores = .indexError)
  ∧ (5 ≤ cores.length → ∃ tx rx,
      run_for_pod_split false cores = .ok (cores.headD "") tx rx
      ∧ tx.Perm ((cores.drop 1).take (evenHalf cores.length))
      ∧ rx.Perm ((cores.drop (evenHalf cores.length + 1)).take (evenHalf cores.length))
      ∧ 2 ≤ evenHalf cores.length
      ∧ evenHalf cores.length % 2 = 0
      ∧ 2 * evenHalf cores.length ≤ cores.length - 1) := by
  have htail : cores.tail.length = cores.length - 1 := List.length_tail _
  refine ⟨?_, ?_, ?_⟩
  · intro h
    unfold run_for_pod_split
    rcases Nat.lt_or_ge cores.length 2 with h1 | h1
    · rw [if_pos h1]
    · rw [if_neg (by omega)]
      rw [if_pos (by simp only [Bool.false_eq_true, if_false]; omega)]
  · intro h
    have he : evenHalf cores.length = 0 := by
      have ht : (cores.length - 1) / 2 = 1 := by omega
      simp only [evenHalf, ht]
      decide
    unfold run_for_pod_split
    rw [if_neg (by omega)]
    rw [if_neg (by simp only [Bool.false_eq_true, if_false]; omega)]
    rw [if_neg (by omega)]
    simp only [Bool.false_eq_true, if_false, he, List.take_zero, sortStr,
      List.foldr_nil, List.isEmpty_nil, if_true]
  · intro h
    have ht2 : 2 ≤ (cores.length - 1) / 2 := by omega
    have heven : evenHalf cores.length % 2 = 0 := by
      simp only [evenHalf]
      split <;> omega
    have hle : evenHalf cores.length ≤ (cores.length - 1) / 2 := by
      simp only [evenHalf]
      split <;> omega
    have hge : 2 ≤ evenHalf cores.length := by
      simp only [evenHalf]
      split <;> omega
    have hbound : 2 * evenHalf cores.length ≤ cores.length - 1 := by omega
    refine ⟨sortStr ((cores.drop 1).take (evenHalf cores.length)),
      sortStr ((cores.drop (evenHalf cores.length + 1)).take (evenHalf cores.length)),
      ?_, sortStr_perm _, sortStr_perm _, hge, heven, hbound⟩
    have hlen : ((cores.drop 1).take (evenHalf cores.length)).length
        = evenHalf cores.length := by
      rw [List.length_take, List.length_drop]
      omega
    have hslen : (sortStr ((cores.drop 1).take (evenHalf cores.length))).length
        = evenHalf cores.length := by
      rw [sortStr_length, hlen]
    have hne : (sortStr ((cores.drop 1).take (evenHalf cores.length))).isEmpty = false := by
      rcases hsort : sortStr ((cores.drop 1).take (evenHalf cores.length)) with _ | ⟨a, l⟩
      · rw [hsort] at hslen
        simp at hslen
        omega
      · rfl
    unfold run_for_pod_split
    rw [if_neg (by omega)]
    rw [if_neg (by simp only [Bool.false_eq_true, if_false]; omega)]
    rw [if_neg (by omega)]
    simp only [Bool.false_eq_true, if_false, hne]

/-- Witness for C2 (amended) at concrete inputs: 2 cores are refused,
3 cores hit the `IndexError`, and 6 cores split into two even halves. -/
theorem C2_core_split_amended_witness :
    run_for_pod_split false ["4", "5"] = .refused
  ∧ run_for_pod_split false ["4", "5", "6"] = .indexError
  ∧ (∃ tx rx,
      run_for_pod_split false ["10", "11", "12", "13", "14", "15"]
        = .ok ((["10", "11", "12", "13", "14", "15"] : List String).headD "") tx rx
      ∧ tx.Perm (((["10", "11", "12", "13", "14", "15"] : List String).drop 1).take
          (evenHalf (["10", "11", "12", "13", "14", "15"] : List String).length))
      ∧ rx.Perm (((["10", "11", "12", "13", "14", "15"] : List String).drop
            (evenHalf (["10", "11", "12", "13", "14", "15"] : List String).length + 1)).take
          (evenHalf (["10", "11", "12", "13", "14", "15"] : List String).length))
      ∧ 2 ≤ evenHalf (["10", "11", "12", "13", "14", "15"] : List String).length
      ∧ evenHalf (["10", "11", "12", "13", "14", "15"] : List String).length % 2 = 0
      ∧ 2 * evenHalf (["10", "11", "12", "13", "14", "15"] : List String).length
          ≤ (["10", "11", "12", "13", "14", "15"] : List String).length - 1) :=
  ⟨(C2_core_split_amended _).1 (by decide),
   (C2_core_split_amended _).2.1 (by norm_num),
   (C2_core_split_amended _).2.2 (by decide)⟩

/-! ## Generator sampling loop (C3)

Source lines 2324-2339: `sample_count = cmd.sample_count or
int(cmd.duration / sample_interval)`, then `for j in range(sample_count)`
sampling once per tick and breaking on a failed sample, then one more
sample, the `stop` command over the control channel, and one final
sample. -/

/-- One observable event of the generator driver: a control-channel sample
(with the success flag returned by `sample_pktgen_stats_via_socat`) or the
`stop` command pushed by `send_pktgen_stop`. -/
inductive GenEvent where
  | sample (ok : Bool)
  | stopCmd
  deriving DecidableEq, Repr

/-- `cmd.sample_count or int(cmd.duration / sample_interval)`: Python `or`
falls through on `None` *and on a set value of `0`* (both falsy).
`duration` and `sample_interval` are validated positive, so float-division
truncation is `Nat` division. -/
def sample_count_of (sample_count : Option Int) (duration sample_interval : Nat) : Int :=
  match sample_count with
  | some n => if n ≠ 0 then n else (duration / sample_interval : Nat)
  | none => (duration / sample_interval : Nat)

/-- The `for j in range(sample_count)` loop: each iteration takes one
sample (`oracle j` is its success) and breaks after the first failed one.
`range` of a negative count is empty, hence the `Nat` iteration count. -/
def sampling_loop (oracle : Nat → Bool) : Nat → Nat → List GenEvent
  | 0, _ => []
  | k + 1, j =>
      if oracle j then GenEvent.sample true :: sampling_loop oracle k (j + 1)
      else [GenEvent.sample false]

/-- Number of sampling-helper invocations in a trace. -/
def countSamples (es : List GenEvent) : Nat :=
  es.countP fun e => match e with | .sample _ => true | .stopCmd => false

/-- Full event trace of one generator driver (source 2329-2339): the
periodic loop, then one post-loop sample, the `stop` command, and one
final sample. -/
def generator_sampling_trace (oracle : Nat → Bool) (sc : Option Int)
    (duration sample_interval : Nat) : List GenEvent :=
  let loopEvents := sampling_loop oracle ((sample_count_of sc duration sample_interval).toNat) 0
  let c := countSamples loopEvents
  loopEvents ++ [GenEvent.sample (oracle c), GenEvent.stopCmd, GenEvent.sample (oracle (c + 1))]

theorem countSamples_sampling_loop_le (oracle : Nat → Bool) :
    ∀ n j, countSamples (sampling_loop oracle n j) ≤ n := by
  intro n
  induction n with
  | zero => intro j; simp [sampling_loop, countSamples]
  | succ k ih =>
    intro j
    unfold sampling_loop
    split
    · have h := ih (j + 1)
      simp only [countSamples, List.countP_cons] at h ⊢
      simp only [if_true]
      omega
    · simp [countSamples, List.countP_cons]

/-- **C3 counterexample.** With `--sample-count 0` (a set value), duration
60 and interval 10, the claim bounds the helper invocations by
`sample_count + 2 = 2`; but Python `or` treats the set `0` as unset, the
loop runs `int(60 / 10) = 6` iterations, and with every sample succeeding
the helper is invoked 8 times. -/
theorem C3_sampling_counterexample :
    countSamples (generator_sampling_trace (fun _ => true) (some 0) 60 10) = 8
  ∧ ¬ (8 ≤ 0 + 2) := by decide

/-- **C3 (amended).** With `sample_count` equal to the `--sample-count`
option when set *to a non-zero value* and `⌊duration / sample_interval⌋`
otherwise, every generator driver invokes the sampling helper at most
`max(sample_count, 0) + 2` times; the loop itself contributes at most
`max(sample_count, 0)` invocations, and the trace always ends — also after
an early break — with exactly one additional sample, then the `stop`
command over the control channel, then one final sample. -/
theorem C3_sampling_budget_amended (oracle : Nat → Bool) (sc : Option Int)
    (duration sample_interval : Nat) :
    countSamples (generator_sampling_trace oracle sc duration sample_interval)
      ≤ (sample_count_of sc duration sample_interval).toNat + 2
  ∧ ∃ pre b₁ b₂,
      generator_sampling_trace oracle sc duration sample_interval
        = pre ++ [GenEvent.sample b₁, GenEvent.stopCmd, GenEvent.sample b₂]
      ∧ countSamples pre ≤ (sample_count_of sc duration sample_interval).toNat := by
  have hloop := countSamples_sampling_loop_le oracle
    ((sample_count_of sc duration sample_interval).toNat) 0
  constructor
  · unfold generator_sampling_trace
    simp only [countSamples, List.countP_append, List.countP_cons, List.countP_nil] at hloop ⊢
    simp only [if_true, Bool.false_eq_true, if_false]
    omega
  · refine ⟨sampling_loop oracle ((sample_count_of sc duration sample_interval).toNat) 0,
      _, _, rfl, hloop⟩

/-! ## Failed TX driver and artifact collection (C1)

Source: the worker-pool aggregation `tx_core_list = [r for r in results if
r is not None]` (lines 2350-2364) and the per-pair collection loop of
`main_start_generator` (lines 2772-2831), which reads `tx_core_list[i]`
for the index `i` of the pair in `zip(tx_pods, rx_pods)`. -/

/-- The worker return value `(main_core, tx_cores, all_core_str)`. -/
abbrev CoreTriple := String × String × String

/-- `tx_core_list = [r for r in results if r is not None]` (source 2357):
failure sentinels are filtered out, shifting every later entry down. -/
def tx_core_list_of (results : List (Option CoreTriple)) : List CoreTriple :=
  results.filterMap id

/-- One pair artifact directory as written by the collection loop:
the pods of the pair and the core assignments recorded for them. -/
structure PairArtifact where
  txPod : String
  rxPod : String
  txAssign : CoreTriple
  rxAssign : CoreTriple
  deriving DecidableEq, Repr

/-- The collection loop of `main_start_generator` (source 2772-2831):
`for i, (tx_pod, rx_pod) in enumerate(zip(tx_pods, rx_pods))` reads
`tx_core_list[i]` and `rx_core_list[i]` and writes that pair's artifact
directory.  An out-of-range index raises `IndexError`, aborting the loop;
pairs processed before the abort have already been written. -/
def collect_pair_artifacts (tx_pods rx_pods : List String)
    (tx_core_list rx_core_list : List CoreTriple) :
    List PairArtifact × Option String :=
  go (tx_pods.zip rx_pods) 0
where
  go : List (String × String) → Nat → List PairArtifact × Option String
  | [], _ => ([], none)
  | (tx, rx) :: rest, i =>
      match tx_core_list.get? i, rx_core_list.get? i with
      | some ta, some ra =>
          let r := go rest (i + 1)
          (⟨tx, rx, ta, ra⟩ :: r.1, r.2)
      | _, _ => ([], some "IndexError: list index out of range")

/-- **C1.** The claim (spec I5) predicts that when the first TX worker
fails, the pair `tx0-rx0` gets no archive while `tx1-rx1` gets its own
assignment `A1`.  Instead, filtering the failure sentinel shifts the
result list, so the loop writes the `tx0-rx0` artifact with `tx1`'s
assignment `A1` and then raises `IndexError` before `tx1-rx1` is
processed — matching the source's own pending TODO
(`# TOOD add logic to handle only successfully pairs`). -/
theorem C1_failed_driver_archives :
    tx_core_list_of [none, some ("8", "9-10", "8,9,10,11,12")]
      = [("8", "9-10", "8,9,10,11,12")]
  ∧ collect_pair_artifacts ["tx0", "tx1"] ["rx0", "rx1"]
      (tx_core_list_of [none, some ("8", "9-10", "8,9,10,11,12")])
      [("2", "3-4", "2,3,4,5,6"), ("12", "13-14", "12,13,14,15,16")]
    = ([⟨"tx0", "rx0", ("8", "9-10", "8,9,10,11,12"), ("2", "3-4", "2,3,4,5,6")⟩],
       some "IndexError: list index out of range") := by
  refine ⟨by decide, by decide⟩

/-! ## SIGINT handling (C4)

Source: the `except KeyboardInterrupt` handler of the `start_generator`
verb (lines 3510-3527) and the `clean_up` routine (lines 3180-3225). -/

/-- Externally visible cleanup steps around an interrupt. -/
inductive CleanupAction where
  | killTmuxSession (session : String)
  | stopReceivers
  | forceKillGenerators
  | removeTmpFiles
  | joinSamplers
  | closePool
  | exitWith (code : Nat)
  deriving DecidableEq, Repr

/-- `f"pktgen_{args.profile.split('.')[0]}"`. -/
def session_name_of (profile : String) : String :=
  "pktgen_" ++ (pySplit '.' profile).headD ""

/-- The `except KeyboardInterrupt` handler (source 3513-3527): kill the
tmux session, join `vf_monitor_threads` if it is set, `sys.exit(130)`.
`threads_started` says whether `vf_monitor_threads = main_start_generator(args)`
had already completed; a `KeyboardInterrupt` raised *during* the call
leaves the variable at its initial `None`, so on any mid-run interrupt
`threads_started = false` and even the join is skipped. -/
def keyboard_interrupt_actions (profile : String) (threads_started : Bool) :
    List CleanupAction :=
  [CleanupAction.killTmuxSession (session_name_of profile)]
  ++ (if threads_started then [CleanupAction.joinSamplers] else [])
  ++ [CleanupAction.exitWith 130]

/-- `clean_up` (source 3180-3225): stop testpmd on the RX pods, force-kill
pktgen (`pkill -9 pktgen`) in every TX pod, remove `/tmp/*.csv` and
`/sample_pktgen.lua` in every TX pod, then kill the tmux session.  Its
docstring declares it the cleanup routine for `KeyboardInterrupt`, but the
program contains no call site for it. -/
def clean_up_actions (profile : String) : List CleanupAction :=
  [CleanupAction.stopReceivers, CleanupAction.forceKillGenerators,
   CleanupAction.removeTmpFiles, CleanupAction.killTmuxSession (session_name_of profile)]

/-- **C1/C4 divergence record for C4.** On a mid-run SIGINT the handler
only kills the tmux session and exits with 130: generators are not
force-killed, `/tmp` files are not removed, receivers are not stopped, the
SSH pool is not closed, and the sampler join is skipped (it runs only when
the experiment already finished).  The full cleanup sequence exists as the
uncalled `clean_up` routine. -/
theorem C4_sigint_handler_actions :
    (∀ profile : String, keyboard_interrupt_actions profile false
        = [CleanupAction.killTmuxSession (session_name_of profile),
           CleanupAction.exitWith 130])
  ∧ CleanupAction.forceKillGenerators ∉ keyboard_interrupt_actions "p.lua" false
  ∧ CleanupAction.removeTmpFiles ∉ keyboard_interrupt_actions "p.lua" false
  ∧ CleanupAction.stopReceivers ∉ keyboard_interrupt_actions "p.lua" false
  ∧ CleanupAction.closePool ∉ keyboard_interrupt_actions "p.lua" false
  ∧ CleanupAction.joinSamplers ∉ keyboard_interrupt_actions "p.lua" false
  ∧ clean_up_actions "p.lua"
      = [CleanupAction.stopReceivers, CleanupAction.forceKillGenerators,
         CleanupAction.removeTmpFiles, CleanupAction.killTmuxSession "pktgen_p"] := by
  refine ⟨fun profile => rfl, by decide, by decide, by decide, by decide, by decide, by decide⟩

/-! ## Flow-mode increments and rendered profile ranges (C6)

Source: `get_increments_from_mode` (lines 726-750) and the range and
increment computation of `render_paired_lua_profile` (lines 2920-2937).
Python `'s' in mode` is case-sensitive substring containment. -/

/-- The per-field increments selected by a flow mode. -/
structure Increments where
  src_ip_inc : String
  dst_ip_inc : String
  src_port_inc : Int
  dst_port_inc : Int
  deriving DecidableEq, Repr

/-- `get_increments_from_mode` (source 726-750). -/
def get_increments_from_mode (mode : String) : Increments :=
  let ip_inc := if pyIn "s" mode || pyIn "d" mode then "0.0.0.1" else "0.0.0.0"
  { src_ip_inc := if pyIn "s" mode then ip_inc else "0.0.0.0"
    dst_ip_inc := if pyIn "d" mode then ip_inc else "0.0.0.0"
    src_port_inc := if pyIn "P" mode || pyIn "S" mode then 1 else 0
    dst_port_inc := if pyIn "P" mode || pyIn "D" mode then 1 else 0 }

/-- The max-range values and increments written into one rendered paired
profile. -/
structure PairedRanges where
  src_max_ip : Int
  dst_max_ip : Int
  src_port_max : Int
  dst_port_max : Int
  src_ip_inc : String
  dst_ip_inc : String
  src_port_inc : Int
  dst_port_inc : Int
  deriving DecidableEq, Repr

/-- Range and increment computation of `render_paired_lua_profile` (source
2920-2937).  IPv4 addresses are modelled by their numeric value
(`ip_address` plus an integer is plain integer addition). -/
def render_paired_ranges (base_src base_dst src_port dst_port num_flows : Int)
    (flow_mode : String) : PairedRanges :=
  { src_max_ip := if pyIn "s" flow_mode then base_src + num_flows - 1 else base_src
    dst_max_ip := if pyIn "d" flow_mode then base_dst + num_flows - 1 else base_dst
    src_port_max := if pyIn "S" flow_mode then src_port + num_flows - 1 else src_port
    dst_port_max := if pyIn "D" flow_mode then dst_port + num_flows - 1 else dst_port
    src_ip_inc := if pyIn "s" flow_mode then "0.0.0.1" else "0.0.0.0"
    dst_ip_inc := if pyIn "d" flow_mode then "0.0.0.1" else "0.0.0.0"
    src_port_inc := if pyIn "S" flow_mode then 1 else 0
    dst_port_inc := if pyIn "D" flow_mode then 1 else 0 }

/-- **C6.** Mode `s` does increment the source IP only, as claimed; but the
port increments test the *uppercase* letters `S`, `D`, `P`, which no
allowed mode (`s, sd, sp, dp, spd, sdpp, sdpd`, all lowercase) contains.
With `num_flows = 8`: mode `sp` increments the source IP only (source-port
max stays at the base, spanning 1 value instead of 8), and mode `dp`
increments the destination IP only (not the source IP, and the
destination-port max stays at the base) — contradicting the program's own
`--flow-mode` help text (`sp - Increment Source IP + Source Port`,
`dp - Increment Source IP + Destination Port`, source 3283-3285). -/
theorem C6_flow_mode_increments :
    get_increments_from_mode "s" = ⟨"0.0.0.1", "0.0.0.0", 0, 0⟩
  ∧ get_increments_from_mode "sp" = ⟨"0.0.0.1", "0.0.0.0", 0, 0⟩
  ∧ get_increments_from_mode "dp" = ⟨"0.0.0.0", "0.0.0.1", 0, 0⟩
  ∧ render_paired_ranges 100 200 1024 2048 8 "sp"
      = ⟨107, 200, 1024, 2048, "0.0.0.1", "0.0.0.0", 0, 0⟩
  ∧ render_paired_ranges 100 200 1024 2048 8 "dp"
      = ⟨100, 207, 1024, 2048, "0.0.0.0", "0.0.0.1", 0, 0⟩ := by
  refine ⟨by decide, by decide, by decide, by decide, by decide⟩

/-! ## RX stats log parsing and archive gating (C7)

Source: `parse_testpmd_log` (lines 618-718) and the log-to-archive path of
`collect_and_parse_rx_stats` (lines 2461-2482). -/

/-- Match `lit` followed by `\s+` followed by `\d+` at the head of `cs`,
returning the numeral. -/
def matchLitNum (lit : List Char) (cs : List Char) : Option Nat :=
  match dropLit lit cs with
  | none => none
  | some rest =>
      if (rest.takeWhile isPySpace).isEmpty then none
      else
        let ds := (rest.dropWhile isPySpace).takeWhile Char.isDigit
        if ds.isEmpty then none else some (digitsVal ds)

/-- `re.search(lit + r"\s+(\d+)", line)`: leftmost occurrence.  The
subsequent `match.group(1).isdigit()` check in the source is vacuous
(group 1 is `\d+`). -/
def searchLitNum (lit : String) (line : String) : Option Nat :=
  go lit.data line.data
where
  go (l : List Char) : List Char → Option Nat
    | [] => matchLitNum l []
    | c :: rest =>
        match matchLitNum l (c :: rest) with
        | some n => some n
        | none => go l rest

/-- The nine per-counter series extracted from a testpmd stats log. -/
structure TestpmdStats where
  rx_pps : List Nat
  tx_pps : List Nat
  rx_bytes : List Nat
  tx_bytes : List Nat
  rx_packets : List Nat
  tx_packets : List Nat
  rx_errors : List Nat
  rx_missed : List Nat
  rx_nombuf : List Nat
  deriving DecidableEq, Repr

/-- One line of the log through the `if`/`elif` chain of
`parse_testpmd_log` (source 653-700): the first matching category wins,
and a line whose containment test passes but whose regex fails contributes
nothing. -/
def testpmd_step (s : TestpmdStats) (line : String) : TestpmdStats :=
  if pyIn "Rx-pps:" line then
    match searchLitNum "Rx-pps:" line with
    | some n => { s with rx_pps := s.rx_pps ++ [n] }
    | none => s
  else if pyIn "Tx-pps:" line then
    match searchLitNum "Tx-pps:" line with
    | some n => { s with tx_pps := s.tx_pps ++ [n] }
    | none => s
  else if pyIn "RX-bytes:" line then
    match searchLitNum "RX-bytes:" line with
    | some n => { s with rx_bytes := s.rx_bytes ++ [n] }
    | none => s
  else if pyIn "TX-bytes:" line then
    match searchLitNum "TX-bytes:" line with
    | some n => { s with tx_bytes := s.tx_bytes ++ [n] }
    | none => s
  else if pyIn "RX-packets:" line then
    match searchLitNum "RX-packets:" line with
    | some n => { s with rx_packets := s.rx_packets ++ [n] }
    | none => s
  else if pyIn "TX-packets:" line then
    match searchLitNum "TX-packets:" line with
    | some n => { s with tx_packets := s.tx_packets ++ [n] }
    | none => s
  else if pyIn "RX-missed:" line then
    match searchLitNum "RX-missed:" line with
    | some n => { s with rx_missed := s.rx_missed ++ [n] }
    | none => s
  else if pyIn "RX-nombuf:" line then
    match searchLitNum "RX-nombuf:" line with
    | some n => { s with rx_nombuf := s.rx_nombuf ++ [n] }
    | none => s
  else if pyIn "RX-errors:" line then
    match searchLitNum "RX-errors:" line with
    | some n => { s with rx_errors := s.rx_errors ++ [n] }
    | none => s
  else s

/-- `parse_testpmd_log` (source 618-718): fold the lines, then zero-pad
*only* the error/missed/nombuf series at the tail up to
`max(len(rx_pps), len(rx_errors), len(rx_missed), len(rx_nombuf))`.
All values are integers by construction. -/
def parse_testpmd_log (lines : List String) : TestpmdStats :=
  let s := lines.foldl testpmd_step ⟨[], [], [], [], [], [], [], [], []⟩
  let maxLen := max (max s.rx_pps.length s.rx_errors.length)
    (max s.rx_missed.length s.rx_nombuf.length)
  { s with
    rx_errors := s.rx_errors ++ List.replicate (maxLen - s.rx_errors.length) 0
    rx_missed := s.rx_missed ++ List.replicate (maxLen - s.rx_missed.length) 0
    rx_nombuf := s.rx_nombuf ++ List.replicate (maxLen - s.rx_nombuf.length) 0 }

/-- Whether any series of the parse is empty.  The summary loop of
`collect_and_parse_rx_stats` (source 2467-2468) calls `arr.min()` and
`arr.max()` on every series; NumPy raises `ValueError` on an empty array
and the enclosing `except` then skips `np.savez`, so an archive is emitted
iff every one of the nine series is non-empty. -/
def anySeriesEmpty (s : TestpmdStats) : Bool :=
  s.rx_pps.isEmpty || s.tx_pps.isEmpty || s.rx_bytes.isEmpty || s.tx_bytes.isEmpty
  || s.rx_packets.isEmpty || s.tx_packets.isEmpty || s.rx_errors.isEmpty
  || s.rx_missed.isEmpty || s.rx_nombuf.isEmpty

/-- The archive written for one RX stats log, `none` when the write is
suppressed. -/
def rx_archive_of (lines : List String) : Option TestpmdStats :=
  let s := parse_testpmd_log lines
  if anySeriesEmpty s then none else some s

/-- A stats log with two `Rx-pps` samples but a single `RX-packets` /
`RX-bytes` sample. -/
def c7log : List String :=
  ["  Rx-pps:          5", "  Rx-pps:          6", "  Tx-pps:          1",
   "  RX-packets: 7", "  RX-bytes:  100", "  TX-packets: 1", "  TX-bytes: 64"]

/-- The archive parsed from `c7log`. -/
def cs7 : TestpmdStats :=
  ⟨[5, 6], [1], [100], [64], [7], [1], [0, 0], [0, 0], [0, 0]⟩

/-- **C7 counterexample.** `c7log` is parsed into an archive (every series
non-empty after padding), yet the required RX series do not have equal
lengths: `rx_pps` has 2 entries while `rx_packets` and `rx_bytes` have 1 —
zero-padding is applied only to the error/missed/nombuf series, never to
the three required series. -/
theorem C7_rx_series_counterexample :
    rx_archive_of c7log = some cs7
  ∧ cs7.rx_pps.length = 2 ∧ cs7.rx_packets.length = 1 ∧ cs7.rx_bytes.length = 1 := by
  refine ⟨by decide, by decide, by decide, by decide⟩

/-- **C7 (amended).** For every RX stats log parsed into an archive, each
required RX series (`rx_pps`, `rx_packets`, `rx_bytes`) has length ≥ 1
(indeed every series does, since an empty series aborts the write), and
all values are integer-typed by construction; but only the
`rx_errors`/`rx_missed`/`rx_nombuf` series are zero-padded at the tail, to
the common length `max(|rx_pps|, |rx_errors|, |rx_missed|, |rx_nombuf|)`
(hence ≥ `|rx_pps|`); the lengths of the three required series are not
equalised and may differ. -/
theorem C7_rx_series_amended (lines : List String) (s : TestpmdStats)
    (h : rx_archive_of lines = some s) :
    1 ≤ s.rx_pps.length ∧ 1 ≤ s.rx_packets.length ∧ 1 ≤ s.rx_bytes.length
  ∧ s.rx_errors.length = s.rx_missed.length
  ∧ s.rx_missed.length = s.rx_nombuf.length
  ∧ s.rx_pps.length ≤ s.rx_errors.length := by
  simp only [rx_archive_of] at h
  split at h
  · exact absurd h (by simp)
  · rename_i hgate
    have hs : parse_testpmd_log lines = s := by
      injection h
    have hpad : (parse_testpmd_log lines).rx_errors.length
          = (parse_testpmd_log lines).rx_missed.length
        ∧ (parse_testpmd_log lines).rx_missed.length
          = (parse_testpmd_log lines).rx_nombuf.length
        ∧ (parse_testpmd_log lines).rx_pps.length
          ≤ (parse_testpmd_log lines).rx_errors.length := by
      unfold parse_testpmd_log
      simp only [List.length_append, List.length_replicate]
      omega
    rw [hs] at hpad
    unfold anySeriesEmpty at hgate
    simp only [Bool.or_eq_true, List.isEmpty_iff, not_or] at hgate
    rw [hs] at hgate
    obtain ⟨⟨⟨⟨⟨⟨⟨⟨h1, h2⟩, h3⟩, h4⟩, h5⟩, h6⟩, h7⟩, h8⟩, h9⟩ := hgate
    exact ⟨List.length_pos.mpr h1, List.length_pos.mpr h5, List.length_pos.mpr h3,
      hpad.1, hpad.2.1, hpad.2.2⟩

/-- Witness for C7 (amended) at the concrete log `c7log`. -/
theorem C7_rx_series_amended_witness :
    1 ≤ cs7.rx_pps.length ∧ 1 ≤ cs7.rx_packets.length ∧ 1 ≤ cs7.rx_bytes.length
  ∧ cs7.rx_errors.length = cs7.rx_missed.length
  ∧ cs7.rx_missed.length = cs7.rx_nombuf.length
  ∧ cs7.rx_pps.length ≤ cs7.rx_errors.length :=
  C7_rx_series_amended c7log cs7 (by decide)

/-! ## The sanity verb (C8)

Source: `sanity_check` (lines 549-615) and the `--purge` path of the
`sanity` verb (lines 3535-3579). -/

/-- Python `f.startswith(pre)`. -/
def strStartsWith (f pre : String) : Bool :=
  (dropLit pre.data f.data).isSome

/-- Python `f.endswith(suff)`. -/
def strEndsWith (f suff : String) : Bool :=
  (dropLit suff.data.reverse f.data.reverse).isSome

/-- If two literals both match at the head of the same list, the shorter
matches at the head of the longer. -/
theorem dropLit_isSome_trans (u : List Char) :
    ∀ (v w : List Char), (dropLit u w).isSome = true → (dropLit v w).isSome = true →
      u.length ≤ v.length → (dropLit u v).isSome = true := by
  induction u with
  | nil => intro v w _ _ _; rfl
  | cons a as ih =>
    intro v w hu hv hl
    cases w with
    | nil => simp [dropLit] at hu
    | cons c cs =>
      cases v with
      | nil => simp at hl
      | cons b bs =>
        unfold dropLit at hu hv ⊢
        by_cases hac : (a == c) = true
        · rw [if_pos hac] at hu
          by_cases hbc : (b == c) = true
          · rw [if_pos hbc] at hv
            have hab : (a == b) = true := by
              have ha := eq_of_beq hac
              have hb := eq_of_beq hbc
              subst ha; subst hb; exact beq_self_eq_true _
            rw [if_pos hab]
            exact ih bs cs hu hv (by simpa using hl)
          · rw [if_neg hbc] at hv
            simp at hv
        · rw [if_neg hac] at hu
          simp at hu

/-- Incompatible heads cannot both match the same list. -/
theorem not_both_of_incompat (u v w : List Char) (hl : u.length ≤ v.length)
    (hpre : (dropLit u v).isSome = false) :
    ¬((dropLit u w).isSome = true ∧ (dropLit v w).isSome = true) := by
  rintro ⟨hu, hv⟩
  rw [dropLit_isSome_trans u v w hu hv hl] at hpre
  exact Bool.true_eq_false ▸ hpre ▸ rfl

/-- A file whose name ends with the (shorter) suffix `u` cannot also end
with `v` when `u` reversed does not head `v` reversed. -/
theorem ends_excl_right (u v f : String) (hl : u.data.length ≤ v.data.length)
    (hpre : (dropLit u.data.reverse v.data.reverse).isSome = false)
    (hu : strEndsWith f u = true) : strEndsWith f v = false := by
  apply Bool.eq_false_iff.mpr
  intro hv
  exact not_both_of_incompat u.data.reverse v.data.reverse f.data.reverse
    (by simpa using hl) hpre ⟨hu, hv⟩

/-- Converse direction of `ends_excl_right`. -/
theorem ends_excl_left (u v f : String) (hl : u.data.length ≤ v.data.length)
    (hpre : (dropLit u.data.reverse v.data.reverse).isSome = false)
    (hv : strEndsWith f v = true) : strEndsWith f u = false := by
  apply Bool.eq_false_iff.mpr
  intro hu
  exact not_both_of_incompat u.data.reverse v.data.reverse f.data.reverse
    (by simpa using hl) hpre ⟨hu, hv⟩

/-- A name starting with `rx` does not start with `tx`. -/
theorem starts_rx_not_tx (f : String) (h : strStartsWith f "rx" = true) :
    strStartsWith f "tx" = false := by
  apply Bool.eq_false_iff.mpr
  intro htx
  exact not_both_of_incompat "rx".data "tx".data f.data (by decide) (by decide) ⟨h, htx⟩

/-- A name ending with `u` is not `metadata.txt` unless `metadata.txt`
itself ends with `u`. -/
theorem metadata_beq_false (f u : String) (hu : strEndsWith f u = true)
    (hm : strEndsWith "metadata.txt" u = false) : (f == "metadata.txt") = false := by
  apply Bool.eq_false_iff.mpr
  intro hbeq
  have : f = "metadata.txt" := eq_of_beq hbeq
  subst this
  rw [hu] at hm
  exact Bool.true_eq_false ▸ hm ▸ rfl

/-- TX archive: an `.npz` whose name contains `_tx_`. -/
def isTxNpz (f : String) : Bool := strEndsWith f ".npz" && pyIn "_tx_" f

/-- RX archive: an `.npz` whose name contains `_rx_`; classification is by
first matching rule, so a name also containing `_tx_` counts as the TX
archive instead. -/
def isRxNpz (f : String) : Bool :=
  strEndsWith f ".npz" && (pyIn "_rx_" f && !(pyIn "_tx_" f))

/-- The metadata file. -/
def isMetadata (f : String) : Bool := f == "metadata.txt"

/-- RX stat log: `rx*_stats.log`. -/
def isRxStats (f : String) : Bool := strStartsWith f "rx" && strEndsWith f "_stats.log"

/-- Warm-up log: `rx*_warmup.log`. -/
def isRxWarmup (f : String) : Bool := strStartsWith f "rx" && strEndsWith f "_warmup.log"

/-- TX rate CSV: `tx*_port_rate_stats.csv`. -/
def isTxRate (f : String) : Bool := strStartsWith f "tx" && strEndsWith f "_port_rate_stats.csv"

/-- TX port CSV: `tx*_port_stats.csv`. -/
def isTxPort (f : String) : Bool := strStartsWith f "tx" && strEndsWith f "_port_stats.csv"

/-- The seven required-file flags of `sanity_check` (source 582-590). -/
structure ReqFlags where
  tx_npz : Bool
  rx_npz : Bool
  metadata : Bool
  rx_stats : Bool
  rx_warmup : Bool
  tx_rate : Bool
  tx_port : Bool
  deriving DecidableEq, Repr

/-- The `if`/`elif` classification of one directory entry (source
592-606); the conditions are written with the predicates above, whose
definitions literally restate the source's tests (the second branch's
test is `f.endswith(".npz") and "_rx_" in f`, reached only when the first
failed). -/
def classify (r : ReqFlags) (f : String) : ReqFlags :=
  if isTxNpz f then { r with tx_npz := true }
  else if strEndsWith f ".npz" && pyIn "_rx_" f then { r with rx_npz := true }
  else if isMetadata f then { r with metadata := true }
  else if isRxStats f then { r with rx_stats := true }
  else if isRxWarmup f then { r with rx_warmup := true }
  else if isTxRate f then { r with tx_rate := true }
  else if isTxPort f then { r with tx_port := true }
  else r

/-- All flags down. -/
def noFlags : ReqFlags := ⟨false, false, false, false, false, false, false⟩

/-- `all(required_files.values())`. -/
def allFlags (r : ReqFlags) : Bool :=
  r.tx_npz && r.rx_npz && r.metadata && r.rx_stats && r.rx_warmup && r.tx_rate && r.tx_port

/-- One result directory: its path and its `os.listdir` outcome (`none`
models `FileNotFoundError`). -/
structure PodDir where
  path : String
  listing : Option (List String)
  deriving DecidableEq, Repr

/-- Per-directory completeness as computed by `sanity_check` (source
579-611): a missing listing yields `False`. -/
def dir_ok (d : PodDir) : Bool :=
  match d.listing with
  | none => false
  | some files => allFlags (files.foldl classify noFlags)

/-- `max(len(v) for v in exp_dirs_by_id.values())`; the caller guards
against the empty dictionary (where Python `max` raises). -/
def maxDirCount (exps : List (String × List PodDir)) : Nat :=
  (exps.map fun e => e.2.length).foldl max 0

/-- Per-experiment verdict (source 573-613): experiments with fewer
directories than the maximum are invalid, otherwise all directories must
be complete. -/
def markValid (maxLen : Nat) (dirs : List PodDir) : Bool :=
  if dirs.length < maxLen then false else dirs.all dir_ok

/-- `sanity_check` (source 549-615): `ValueError` from `max()` on an empty
input, otherwise one verdict per experiment id. -/
def sanity_check (exps : List (String × List PodDir)) :
    Except String (List (String × Bool)) :=
  match exps with
  | [] => .error "ValueError: max() arg is an empty sequence"
  | _ => .ok (exps.map fun e => (e.1, markValid (maxDirCount exps) e.2))

theorem band_left {a b : Bool} (h : (a && b) = true) : a = true := by
  cases a <;> simp_all

theorem band_right {a b : Bool} (h : (a && b) = true) : b = true := by
  cases a <;> cases b <;> simp_all

/-- One file classification changes each flag to the disjunction with the
corresponding predicate: the seven artifact categories are mutually
exclusive on any single name. -/
theorem classify_eq (r : ReqFlags) (f : String) :
    classify r f =
      ⟨r.tx_npz || isTxNpz f, r.rx_npz || isRxNpz f, r.metadata || isMetadata f,
       r.rx_stats || isRxStats f, r.rx_warmup || isRxWarmup f,
       r.tx_rate || isTxRate f, r.tx_port || isTxPort f⟩ := by
  unfold classify
  split_ifs with h1 h2 h3 h4 h5 h6 h7
  · -- TX archive
    have hnpz : strEndsWith f ".npz" = true := band_left h1
    have htx : pyIn "_tx_" f = true := band_right h1
    have e2 : isRxNpz f = false := by simp [isRxNpz, htx]
    have e3 : isMetadata f = false := metadata_beq_false f ".npz" hnpz (by decide)
    have e4 : isRxStats f = false := by
      simp [isRxStats, ends_excl_right ".npz" "_stats.log" f (by decide) (by decide) hnpz]
    have e5 : isRxWarmup f = false := by
      simp [isRxWarmup, ends_excl_right ".npz" "_warmup.log" f (by decide) (by decide) hnpz]
    have e6 : isTxRate f = false := by
      simp [isTxRate,
        ends_excl_right ".npz" "_port_rate_stats.csv" f (by decide) (by decide) hnpz]
    have e7 : isTxPort f = false := by
      simp [isTxPort,
        ends_excl_right ".npz" "_port_stats.csv" f (by decide) (by decide) hnpz]
    simp [h1, e2, e3, e4, e5, e6, e7]
  · -- RX archive
    have hnpz : strEndsWith f ".npz" = true := band_left h2
    have hrx : pyIn "_rx_" f = true := band_right h2
    have htx : pyIn "_tx_" f = false := by
      rcases ht : pyIn "_tx_" f
      · rfl
      · exact absurd (by simp [isTxNpz, hnpz, ht]) h1
    have e1 : isTxNpz f = false := by simp [isTxNpz, htx]
    have e2 : isRxNpz f = true := by simp [isRxNpz, hnpz, hrx, htx]
    have e3 : isMetadata f = false := metadata_beq_false f ".npz" hnpz (by decide)
    have e4 : isRxStats f = false := by
      simp [isRxStats, ends_excl_right ".npz" "_stats.log" f (by decide) (by decide) hnpz]
    have e5 : isRxWarmup f = false := by
      simp [isRxWarmup, ends_excl_right ".npz" "_warmup.log" f (by decide) (by decide) hnpz]
    have e6 : isTxRate f = false := by
      simp [isTxRate,
        ends_excl_right ".npz" "_port_rate_stats.csv" f (by decide) (by decide) hnpz]
    have e7 : isTxPort f = false := by
      simp [isTxPort,
        ends_excl_right ".npz" "_port_stats.csv" f (by decide) (by decide) hnpz]
    simp [e1, e2, e3, e4, e5, e6, e7]
  · -- metadata.txt
    have hf : f = "metadata.txt" := eq_of_beq h3
    subst hf
    have e1 : isTxNpz "metadata.txt" = false := by decide
    have e2 : isRxNpz "metadata.txt" = false := by decide
    have e4 : isRxStats "metadata.txt" = false := by decide
    have e5 : isRxWarmup "metadata.txt" = false := by decide
    have e6 : isTxRate "metadata.txt" = false := by decide
    have e7 : isTxPort "metadata.txt" = false := by decide
    simp [e1, e2, e4, e5, e6, e7, isMetadata]
  · -- rx stats log
    have hsw : strStartsWith f "rx" = true := band_left h4
    have hst : strEndsWith f "_stats.log" = true := band_right h4
    have hnpz : strEndsWith f ".npz" = false :=
      ends_excl_left ".npz" "_stats.log" f (by decide) (by decide) hst
    have e1 : isTxNpz f = false := by simp [isTxNpz, hnpz]
    have e2 : isRxNpz f = false := by simp [isRxNpz, hnpz]
    have e3 : isMetadata f = false :=
      metadata_beq_false f "_stats.log" hst (by decide)
    have e5 : isRxWarmup f = false := by
      simp [isRxWarmup,
        ends_excl_right "_stats.log" "_warmup.log" f (by decide) (by decide) hst]
    have htxs : strStartsWith f "tx" = false := starts_rx_not_tx f hsw
    have e6 : isTxRate f = false := by simp [isTxRate, htxs]
    have e7 : isTxPort f = false := by simp [isTxPort, htxs]
    simp [h4, e1, e2, e3, e5, e6, e7]
  · -- rx warmup log
    have hsw : strStartsWith f "rx" = true := band_left h5
    have hwm : strEndsWith f "_warmup.log" = true := band_right h5
    have hnpz : strEndsWith f ".npz" = false :=
      ends_excl_left ".npz" "_warmup.log" f (by decide) (by decide) hwm
    have e1 : isTxNpz f = false := by simp [isTxNpz, hnpz]
    have e2 : isRxNpz f = false := by simp [isRxNpz, hnpz]
    have e3 : isMetadata f = false :=
      metadata_beq_false f "_warmup.log" hwm (by decide)
    have e4 : isRxStats f = false := by
      simp [isRxStats,
        ends_excl_left "_stats.log" "_warmup.log" f (by decide) (by decide) hwm]
    have htxs : strStartsWith f "tx" = false := starts_rx_not_tx f hsw
    have e6 : isTxRate f = false := by simp [isTxRate, htxs]
    have e7 : isTxPort f = false := by simp [isTxPort, htxs]
    simp [h5, e1, e2, e3, e4, e6, e7]
  · -- tx rate csv
    have hsw : strStartsWith f "tx" = true := band_left h6
    have hrt : strEndsWith f "_port_rate_stats.csv" = true := band_right h6
    have hnpz : strEndsWith f ".npz" = false :=
      ends_excl_left ".npz" "_port_rate_stats.csv" f (by decide) (by decide) hrt
    have e1 : isTxNpz f = false := by simp [isTxNpz, hnpz]
    have e2 : isRxNpz f = false := by simp [isRxNpz, hnpz]
    have e3 : isMetadata f = false :=
      metadata_beq_false f "_port_rate_stats.csv" hrt (by decide)
    have e4 : isRxStats f = false := by
      simp [isRxStats,
        ends_excl_left "_stats.log" "_port_rate_stats.csv" f (by decide) (by decide) hrt]
    have e5 : isRxWarmup f = false := by
      simp [isRxWarmup,
        ends_excl_left "_warmup.log" "_port_rate_stats.csv" f (by decide) (by decide) hrt]
    have e7 : isTxPort f = false := by
      simp [isTxPort,
        ends_excl_left "_port_stats.csv" "_port_rate_stats.csv" f (by decide) (by decide) hrt]
    simp [h6, e1, e2, e3, e4, e5, e7]
  · -- tx port csv
    have hsw : strStartsWith f "tx" = true := band_left h7
    have hpt : strEndsWith f "_port_stats.csv" = true := band_right h7
    have hnpz : strEndsWith f ".npz" = false :=
      ends_excl_left ".npz" "_port_stats.csv" f (by decide) (by decide) hpt
    have e1 : isTxNpz f = false := by simp [isTxNpz, hnpz]
    have e2 : isRxNpz f = false := by simp [isRxNpz, hnpz]
    have e3 : isMetadata f = false :=
      metadata_beq_false f "_port_stats.csv" hpt (by decide)
    have e4 : isRxStats f = false := by
      simp [isRxStats,
        ends_excl_left "_stats.log" "_port_stats.csv" f (by decide) (by decide) hpt]
    have e5 : isRxWarmup f = false := by
      simp [isRxWarmup,
        ends_excl_left "_warmup.log" "_port_stats.csv" f (by decide) (by decide) hpt]
    have e6 : isTxRate f = false := by
      have : strEndsWith f "_port_rate_stats.csv" = false := by
        apply Bool.eq_false_iff.mpr
        intro hr
        have := ends_excl_left "_port_stats.csv" "_port_rate_stats.csv" f
          (by decide) (by decide) hr
        rw [hpt] at this
        exact Bool.true_eq_false ▸ this ▸ rfl
      simp [isTxRate, this]
    simp [h7, e1, e2, e3, e4, e5, e6]
  · -- no category
    have e1 : isTxNpz f = false := Bool.eq_false_iff.mpr h1
    have e2 : isRxNpz f = false := by
      rcases hnpz : strEndsWith f ".npz" with _ | _
      · simp [isRxNpz, hnpz]
      · have : pyIn "_rx_" f = false := by
          rcases hr : pyIn "_rx_" f
          · rfl
          · exact absurd (by simp [hnpz, hr]) h2
        simp [isRxNpz, this]
    have e3 : isMetadata f = false := Bool.eq_false_iff.mpr h3
    have e4 : isRxStats f = false := Bool.eq_false_iff.mpr h4
    have e5 : isRxWarmup f = false := Bool.eq_false_iff.mpr h5
    have e6 : isTxRate f = false := Bool.eq_false_iff.mpr h6
    have e7 : isTxPort f = false := Bool.eq_false_iff.mpr h7
    simp [e1, e2, e3, e4, e5, e6, e7]

/-- Folding the classification over a listing sets each flag iff some
entry matches the corresponding category. -/
theorem foldl_classify (files : List String) (r : ReqFlags) :
    files.foldl classify r =
      ⟨r.tx_npz || files.any isTxNpz, r.rx_npz || files.any isRxNpz,
       r.metadata || files.any isMetadata, r.rx_stats || files.any isRxStats,
       r.rx_warmup || files.any isRxWarmup, r.tx_rate || files.any isTxRate,
       r.tx_port || files.any isTxPort⟩ := by
  induction files generalizing r with
  | nil => simp
  | cons f fs ih =>
    rw [List.foldl_cons, ih, classify_eq]
    simp [List.any_cons, Bool.or_assoc]

/-- The spec-side reading of one complete result directory: each of the
seven artifact kinds is present. -/
def dir_complete_spec (fs : List String) : Prop :=
  (∃ f ∈ fs, isTxNpz f = true) ∧ (∃ f ∈ fs, isRxNpz f = true)
  ∧ (∃ f ∈ fs, isMetadata f = true) ∧ (∃ f ∈ fs, isRxStats f = true)
  ∧ (∃ f ∈ fs, isRxWarmup f = true) ∧ (∃ f ∈ fs, isTxRate f = true)
  ∧ (∃ f ∈ fs, isTxPort f = true)

/-- The spec-side reading of a valid experiment: at least as many result
directories as any discovered experiment has, and every one of them listed
and complete. -/
def exp_valid_spec (maxLen : Nat) (dirs : List PodDir) : Prop :=
  maxLen ≤ dirs.length ∧ ∀ d ∈ dirs, ∃ fs, d.listing = some fs ∧ dir_complete_spec fs

theorem dir_ok_iff (d : PodDir) :
    dir_ok d = true ↔ ∃ fs, d.listing = some fs ∧ dir_complete_spec fs := by
  obtain ⟨path, listing⟩ := d
  cases listing with
  | none => simp [dir_ok]
  | some fs =>
    simp only [dir_ok]
    rw [foldl_classify]
    unfold allFlags noFlags
    simp only [dir_complete_spec, List.any_eq_true, Option.some.injEq,
      exists_eq_left', Bool.false_or, Bool.and_eq_true]
    tauto

theorem markValid_iff (maxLen : Nat) (dirs : List PodDir) :
    markValid maxLen dirs = true ↔ exp_valid_spec maxLen dirs := by
  unfold markValid exp_valid_spec
  split
  · rename_i hlt
    constructor
    · intro h
      exact absurd h (by simp)
    · rintro ⟨hle, _⟩
      omega
  · rename_i hlt
    rw [List.all_eq_true]
    constructor
    · intro h
      exact ⟨by omega, fun d hd => (dir_ok_iff d).mp (h d hd)⟩
    · rintro ⟨_, h⟩
      exact fun d hd => (dir_ok_iff d).mpr (h d hd)

/-- Whether a (listed) directory contains an `.npz` entry failing the
`check_npz_validity` oracle `npzOk` (applied to the joined path);
directories of sanity-valid experiments are always listed, so the `none`
case is unreachable on the purge path. -/
def hasBadNpz (npzOk : String → Bool) (d : PodDir) : Bool :=
  match d.listing with
  | some fs => fs.any fun f => strEndsWith f ".npz" && !npzOk (d.path ++ "/" ++ f)
  | none => false

/-- The set of directories removed by `sanity --purge` (source 3545-3579):
`invalid_experiments` collects every directory of a sanity-invalid
experiment and, for sanity-valid experiments, each result directory in
which some `.npz` fails `check_npz_validity`; the purge loop then
deduplicates and removes those paths under the results root that are
directories.  `isDir` models `os.path.isdir`; paths stand for their
absolute forms. -/
def purge_removed (root : String) (isDir npzOk : String → Bool)
    (exps : List (String × List PodDir)) : List String :=
  (((exps.map fun e =>
      if markValid (maxDirCount exps) e.2
      then (e.2.filter (hasBadNpz npzOk)).map fun d => d.path
      else e.2.map fun d => d.path).join).dedup).filter
    fun p => strStartsWith p root && isDir p

/-- A flat characterisation of the purged paths. -/
def purged_spec (root : String) (isDir npzOk : String → Bool)
    (exps : List (String × List PodDir)) (p : String) : Prop :=
  strStartsWith p root = true ∧ isDir p = true
  ∧ ∃ e ∈ exps,
      (markValid (maxDirCount exps) e.2 = false ∧ ∃ d ∈ e.2, d.path = p)
    ∨ (markValid (maxDirCount exps) e.2 = true
        ∧ ∃ d ∈ e.2, d.path = p ∧ hasBadNpz npzOk d = true)

theorem purge_removed_iff (root : String) (isDir npzOk : String → Bool)
    (exps : List (String × List PodDir)) (p : String) :
    p ∈ purge_removed root isDir npzOk exps ↔ purged_spec root isDir npzOk exps p := by
  unfold purge_removed purged_spec
  constructor
  · intro hp
    rw [List.mem_filter] at hp
    obtain ⟨hmem, hcond⟩ := hp
    rw [List.mem_dedup, List.mem_flatten] at hmem
    obtain ⟨l, hl, hpl⟩ := hmem
    rw [List.mem_map] at hl
    obtain ⟨e, he, hle⟩ := hl
    refine ⟨band_left hcond, band_right hcond, e, he, ?_⟩
    by_cases hv : markValid (maxDirCount exps) e.2 = true
    · rw [if_pos hv] at hle
      subst hle
      obtain ⟨d, hd, hdp⟩ := List.mem_map.mp hpl
      rw [List.mem_filter] at hd
      exact Or.inr ⟨hv, d, hd.1, hdp, hd.2⟩
    · rw [if_neg hv] at hle
      subst hle
      obtain ⟨d, hd, hdp⟩ := List.mem_map.mp hpl
      exact Or.inl ⟨Bool.eq_false_iff.mpr hv, d, hd, hdp⟩
  · rintro ⟨hroot, hdir, e, he, hcase⟩
    rw [List.mem_filter, List.mem_dedup, List.mem_flatten]
    refine ⟨?_, by simp [hroot, hdir]⟩
    rcases hcase with ⟨hv, d, hd, hdp⟩ | ⟨hv, d, hd, hdp, hbad⟩
    · exact ⟨e.2.map fun d => d.path,
        List.mem_map.mpr ⟨e, he, by rw [if_neg (by simp [hv])]⟩,
        List.mem_map.mpr ⟨d, hd, hdp⟩⟩
    · exact ⟨(e.2.filter (hasBadNpz npzOk)).map fun d => d.path,
        List.mem_map.mpr ⟨e, he, by rw [if_pos hv]⟩,
        List.mem_map.mpr ⟨d, List.mem_filter.mpr ⟨hd, hbad⟩, hdp⟩⟩

/-- A complete result directory of experiment `aaaa0000`. -/
def c8dir : PodDir :=
  ⟨"results/aaaa0000/tx0-rx0/profile",
   some ["aaaa0000_tx0_tx_data.npz", "aaaa0000_rx0_rx_data.npz", "metadata.txt",
         "rx0_stats.log", "rx0_warmup.log", "tx0_port_rate_stats.csv",
         "tx0_port_stats.csv"]⟩

/-- A results tree with a single experiment, complete and sanity-valid. -/
def c8exps : List (String × List PodDir) := [("aaaa0000", [c8dir])]

/-- **C8 counterexample.** The experiment is marked *valid* by the sanity
walk (all seven artifacts present, directory count maximal), yet with an
`.npz` validity oracle that rejects its archives, `--purge` removes its
result directory — so purge does not remove only directories of invalid
experiments. -/
theorem C8_sanity_counterexample :
    sanity_check c8exps = .ok [("aaaa0000", true)]
  ∧ purge_removed "results" (fun _ => true) (fun _ => false) c8exps
      = ["results/aaaa0000/tx0-rx0/profile"] := by
  refine ⟨rfl, by decide⟩

/-- **C8 (amended).** `sanity_check` marks an experiment valid exactly when
it has at least as many result directories as the maximum over all
discovered experiments and every one of its directories has a listing
containing all seven required artifacts (each entry classified by the
first matching rule, so an `.npz` containing both `_tx_` and `_rx_`
counts only as the TX archive).  With `--purge`, the removed paths are
exactly those under the results root that are directories and either
belong to a sanity-*invalid* experiment or are a directory of a
sanity-*valid* experiment containing an `.npz` entry that fails the
archive validity check. -/
theorem C8_sanity_amended :
    (∀ exps : List (String × List PodDir), exps ≠ [] →
      sanity_check exps = .ok (exps.map fun e => (e.1, markValid (maxDirCount exps) e.2)))
  ∧ (∀ (maxLen : Nat) (dirs : List PodDir),
      markValid maxLen dirs = true ↔ exp_valid_spec maxLen dirs)
  ∧ (∀ (root : String) (isDir npzOk : String → Bool)
      (exps : List (String × List PodDir)) (p : String),
      p ∈ purge_removed root isDir npzOk exps ↔ purged_spec root isDir npzOk exps p) := by
  refine ⟨?_, markValid_iff, purge_removed_iff⟩
  intro exps h
  cases exps with
  | nil => exact absurd rfl h
  | cons e es => rfl

/-- Witness for C8 (amended) at the concrete tree `c8exps`. -/
theorem C8_sanity_amended_witness :
    sanity_check c8exps = .ok (c8exps.map fun e => (e.1, markValid (maxDirCount c8exps) e.2))
  ∧ exp_valid_spec 1 [c8dir]
  ∧ purged_spec "results" (fun _ => true) (fun _ => false) c8exps
      "results/aaaa0000/tx0-rx0/profile" :=
  ⟨C8_sanity_amended.1 c8exps (by decide),
   (C8_sanity_amended.2.1 1 [c8dir]).mp (by decide),
   (C8_sanity_amended.2.2 "results" (fun _ => true) (fun _ => false) c8exps
      "results/aaaa0000/tx0-rx0/profile").mp (by decide)⟩

/-! ## Experiment identifier (C9)

Source lines 2726-2728:
`timestamp = datetime.now().strftime("%Y%m%d_%H%M%S")`,
`expid = hashlib.md5(f"{cmd.profile}_{timestamp}".encode()).hexdigest()[:8]`,
`base_output_dir = os.path.join("results", f"{expid}")`.
`hashlib.md5` is the standard MD5 digest (RFC 1321), implemented below
over byte lists; `str.encode()` is UTF-8. -/

/-- UTF-8 encoding of one code point. -/
def utf8Char (n : Nat) : List Nat :=
  if n < 128 then [n]
  else if n < 2048 then [192 + n / 64, 128 + n % 64]
  else if n < 65536 then [224 + n / 4096, 128 + n / 64 % 64, 128 + n % 64]
  else [240 + n / 262144, 128 + n / 4096 % 64, 128 + n / 64 % 64, 128 + n % 64]

/-- Python `str.encode()`: UTF-8 bytes. -/
def utf8Encode (s : String) : List Nat :=
  s.data.foldr (fun c acc => utf8Char c.toNat ++ acc) []

/-- 32-bit truncation. -/
def w32 (n : Nat) : Nat := n % 4294967296

/-- 32-bit modular addition. -/
def wadd (a b : Nat) : Nat := w32 (a + b)

/-- 32-bit complement. -/
def wnot (a : Nat) : Nat := w32 a ^^^ 4294967295

/-- 32-bit left rotation of a 32-bit value. -/
def rotl (x s : Nat) : Nat :=
  w32 (w32 x * 2 ^ s) ||| (w32 x / 2 ^ (32 - s))

/-- The 64 MD5 sine-table constants. -/
def md5K : List Nat :=
  [0xd76aa478, 0xe8c7b756, 0x242070db, 0xc1bdceee,
   0xf57c0faf, 0x4787c62a, 0xa8304613, 0xfd469501,
   0x698098d8, 0x8b44f7af, 0xffff5bb1, 0x895cd7be,
   0x6b901122, 0xfd987193, 0xa679438e, 0x49b40821,
   0xf61e2562, 0xc040b340, 0x265e5a51, 0xe9b6c7aa,
   0xd62f105d, 0x02441453, 0xd8a1e681, 0xe7d3fbc8,
   0x21e1cde6, 0xc33707d6, 0xf4d50d87, 0x455a14ed,
   0xa9e3e905, 0xfcefa3f8, 0x676f02d9, 0x8d2a4c8a,
   0xfffa3942, 0x8771f681, 0x6d9d6122, 0xfde5380c,
   0xa4beea44, 0x4bdecfa9, 0xf6bb4b60, 0xbebfbc70,
   0x289b7ec6, 0xeaa127fa, 0xd4ef3085, 0x04881d05,
   0xd9d4d039, 0xe6db99e5, 0x1fa27cf8, 0xc4ac5665,
   0xf4292244, 0x432aff97, 0xab9423a7, 0xfc93a039,
   0x655b59c3, 0x8f0ccc92, 0xffeff47d, 0x85845dd1,
   0x6fa87e4f, 0xfe2ce6e0, 0xa3014314, 0x4e0811a1,
   0xf7537e82, 0xbd3af235, 0x2ad7d2bb, 0xeb86d391]

/-- The 64 MD5 per-round rotation amounts. -/
def md5S : List Nat :=
  [7, 12, 17, 22, 7, 12, 17, 22, 7, 12, 17, 22, 7, 12, 17, 22,
   5, 9, 14, 20, 5, 9, 14, 20, 5, 9, 14, 20, 5, 9, 14, 20,
   4, 11, 16, 23, 4, 11, 16, 23, 4, 11, 16, 23, 4, 11, 16, 23,
   6, 10, 15, 21, 6, 10, 15, 21, 6, 10, 15, 21, 6, 10, 15, 21]

/-- Little-endian 8-byte rendering. -/
def le64 (n : Nat) : List Nat :=
  [n % 256, n / 256 % 256, n / 65536 % 256, n / 16777216 % 256,
   n / 4294967296 % 256, n / 1099511627776 % 256,
   n / 281474976710656 % 256, n / 72057594037927936 % 256]

/-- Little-endian 4-byte rendering. -/
def le32 (n : Nat) : List Nat :=
  [n % 256, n / 256 % 256, n / 65536 % 256, n / 16777216 % 256]

/-- MD5 padding: `0x80`, zero bytes up to 56 mod 64, then the 64-bit
little-endian bit length. -/
def md5pad (msg : List Nat) : List Nat :=
  msg ++ [128] ++ List.replicate ((120 - (msg.length + 1) % 64) % 64) 0
      ++ le64 (msg.length * 8 % 18446744073709551616)

/-- Word `i` (little-endian) of a 64-byte block. -/
def blockWord (block : List Nat) (i : Nat) : Nat :=
  block.getD (4 * i) 0 + 256 * block.getD (4 * i + 1) 0
    + 65536 * block.getD (4 * i + 2) 0 + 16777216 * block.getD (4 * i + 3) 0

/-- One MD5 round on the state `(a, b, c, d)`. -/
def md5Round (block : List Nat) (st : Nat × Nat × Nat × Nat) (i : Nat) :
    Nat × Nat × Nat × Nat :=
  let a := st.1
  let b := st.2.1
  let c := st.2.2.1
  let d := st.2.2.2
  let f :=
    if i < 16 then (b &&& c) ||| (wnot b &&& d)
    else if i < 32 then (d &&& b) ||| (wnot d &&& c)
    else if i < 48 then b ^^^ c ^^^ d
    else c ^^^ (b ||| wnot d)
  let g :=
    if i < 16 then i
    else if i < 32 then (5 * i + 1) % 16
    else if i < 48 then (3 * i + 5) % 16
    else (7 * i) % 16
  let tmp := wadd (wadd (wadd a f) (md5K.getD i 0)) (blockWord block g)
  (d, wadd b (rotl tmp (md5S.getD i 0)), b, c)

/-- One 64-byte block: 64 rounds plus the feed-forward addition. -/
def md5Block (st : Nat × Nat × Nat × Nat) (block : List Nat) :
    Nat × Nat × Nat × Nat :=
  let r := (List.range 64).foldl (md5Round block) st
  (wadd st.1 r.1, wadd st.2.1 r.2.1, wadd st.2.2.1 r.2.2.1, wadd st.2.2.2 r.2.2.2)

/-- Process the message 64 bytes at a time; the fuel (instantiated with the
list length, an upper bound on the block count) keeps the recursion
structural. -/
def md5ChunksFuel : Nat → (Nat × Nat × Nat × Nat) → List Nat → Nat × Nat × Nat × Nat
  | 0, st, _ => st
  | _ + 1, st, [] => st
  | fuel + 1, st, b :: rest =>
      md5ChunksFuel fuel (md5Block st ((b :: rest).take 64)) ((b :: rest).drop 64)

/-- The MD5 digest (16 bytes) of a byte list. -/
def md5Bytes (msg : List Nat) : List Nat :=
  let p := md5pad msg
  let r := md5ChunksFuel p.length (0x67452301, 0xefcdab89, 0x98badcfe, 0x10325476) p
  le32 r.1 ++ le32 r.2.1 ++ le32 r.2.2.1 ++ le32 r.2.2.2

/-- The lowercase hex alphabet. -/
def hexDigits : List Char := "0123456789abcdef".data

/-- Lowercase hex digit of `n % 16`. -/
def hexNib (n : Nat) : Char := hexDigits.getD (n % 16) '0'

/-- Lowercase hex rendering of a byte list. -/
def bytesToHex (bs : List Nat) : List Char :=
  bs.foldr (fun b acc => hexNib (b / 16) :: hexNib b :: acc) []

/-- `hashlib.md5(msg).hexdigest()`. -/
def md5Hex (msg : List Nat) : String :=
  String.mk (bytesToHex (md5Bytes msg))

set_option maxRecDepth 100000 in
/-- RFC 1321 test vectors, pinning the MD5 implementation. -/
theorem md5Hex_test_vectors :
    md5Hex (utf8Encode "") = "d41d8cd98f00b204e9800998ecf8427e"
  ∧ md5Hex (utf8Encode "abc") = "900150983cd24fb0d6963f7d28e17f72"
  ∧ md5Hex (utf8Encode "abcdefghijklmnopqrstuvwxyz") = "c3fcd3d76192e4007dfb496cca67e13b" := by
  refine ⟨rfl, rfl, rfl⟩


/-- `expid = hashlib.md5(f"{profile}_{timestamp}".encode()).hexdigest()[:8]`. -/
def experiment_id (profile timestamp : String) : String :=
  pyTake 8 (md5Hex (utf8Encode (profile ++ "_" ++ timestamp)))

/-- `base_output_dir = os.path.join("results", f"{expid}")`; the id is
hex, hence a relative path component. -/
def base_output_dir (profile timestamp : String) : String :=
  "results/" ++ experiment_id profile timestamp

theorem bytesToHex_length (bs : List Nat) : (bytesToHex bs).length = 2 * bs.length := by
  induction bs with
  | nil => rfl
  | cons b t ih =>
    simp only [bytesToHex, List.foldr_cons] at ih ⊢
    simp [ih]
    omega

theorem md5Bytes_length (msg : List Nat) : (md5Bytes msg).length = 16 := by
  unfold md5Bytes le32
  simp

theorem hexNib_mem (n : Nat) : hexNib n ∈ hexDigits := by
  have hb : ∀ m, m < 16 → hexDigits.getD m '0' ∈ hexDigits := by decide
  exact hb (n % 16) (Nat.mod_lt _ (by omega))

theorem bytesToHex_mem (bs : List Nat) : ∀ c ∈ bytesToHex bs, c ∈ hexDigits := by
  induction bs with
  | nil => intro c hc; exact absurd hc (by simp [bytesToHex])
  | cons b t ih =>
    intro c hc
    simp only [bytesToHex, List.foldr_cons, List.mem_cons] at hc
    rcases hc with h | h | h
    · exact h ▸ hexNib_mem _
    · exact h ▸ hexNib_mem _
    · exact ih c h

/-- **C9.** The ExperimentID is the first 8 hexadecimal characters of the
MD5 digest of `profile_name ++ "_" ++ timestamp`; it always has exactly 8
characters, all from the lowercase hex alphabet, and it names the
experiment's results directory `results/<ExperimentID>`. -/
theorem C9_experiment_id (profile timestamp : String) :
    experiment_id profile timestamp
      = pyTake 8 (md5Hex (utf8Encode (profile ++ "_" ++ timestamp)))
  ∧ (experiment_id profile timestamp).length = 8
  ∧ ((experiment_id profile timestamp).data.all fun c => hexDigits.elem c) = true
  ∧ base_output_dir profile timestamp = "results/" ++ experiment_id profile timestamp := by
  refine ⟨rfl, ?_, ?_, rfl⟩
  · show (String.mk ((md5Hex (utf8Encode (profile ++ "_" ++ timestamp))).data.take 8)).length = 8
    have h32 : (md5Hex (utf8Encode (profile ++ "_" ++ timestamp))).data.length = 32 := by
      show (bytesToHex (md5Bytes (utf8Encode (profile ++ "_" ++ timestamp)))).length = 32
      rw [bytesToHex_length, md5Bytes_length]
    show ((md5Hex (utf8Encode (profile ++ "_" ++ timestamp))).data.take 8).length = 8
    rw [List.length_take, h32]
    omega
  · rw [List.all_eq_true]
    intro c hc
    have hmem : c ∈ bytesToHex (md5Bytes (utf8Encode (profile ++ "_" ++ timestamp))) :=
      List.take_subset 8 _ hc
    have := bytesToHex_mem _ c hmem
    exact List.elem_iff.mpr this

/-! ## TX counter CSV parsers (C10)

Source: `parse_pktgen_port_rate_csv` (lines 1358-1400) and
`parse_pktgen_port_stats_csv` (lines 1403-1444). -/

/-- The 12 keys of the rate CSV parser. -/
def rate_keys : List String :=
  ["mbits_tx", "pkts_tx", "obytes", "opackets", "imissed", "oerrors",
   "rx_nombuf", "pkts_rx", "mbits_rx", "ipackets", "ibytes", "ierrors"]

/-- The 8 base keys of the port-stats CSV parser; each cell key is
prefixed with `port_` before the lookup. -/
def port_base_keys : List String :=
  ["rx_nombuf", "opackets", "imissed", "ierrors", "ibytes", "oerrors",
   "obytes", "ipackets"]

/-- The prefixed key set of the port-stats parser. -/
def port_keys : List String := port_base_keys.map fun k => "port_" ++ k

/-- The metric dictionary: one ordered entry per fixed key. -/
abbrev Metrics := List (String × List Int)

/-- The dictionary initialised with every fixed key and an empty list. -/
def metricsInit (keys : List String) : Metrics := keys.map fun k => (k, [])

/-- `key in metrics`. -/
def hasKey (m : Metrics) (k : String) : Bool := m.any fun p => p.1 == k

/-- `metrics[key].append(v)`. -/
def metricsAppend (m : Metrics) (k : String) (v : Int) : Metrics :=
  m.map fun p => if p.1 == k then (p.1, p.2 ++ [v]) else p

/-- Python dict assignment `d[k] = v` on an insertion-ordered table. -/
def metaSet (m : List (String × Nat)) (k : String) (v : Nat) : List (String × Nat) :=
  if m.any fun p => p.1 == k then m.map fun p => if p.1 == k then (k, v) else p
  else m ++ [(k, v)]

/-- Parser state: the metric table and the first-row metadata map
`key ↦ column index`. -/
abbrev ParseState := Metrics × List (String × Nat)

/-- One cell (source 1389-1398 and 1432-1442): a cell without `=` is
skipped; a cell with two or more `=` makes `key, val = kv.split('=')`
raise `ValueError` (the tuple unpack sits outside the `try`); an unknown
(transformed) key is skipped; a known key records its column on the first
line and appends `int(val)`, or `0` when the conversion raises. -/
def process_cell (xform : String → String) (lineNum idx : Nat) (st : ParseState)
    (kv : String) : Except String ParseState :=
  match pySplit '=' kv with
  | [_] => .ok st
  | [key, val] =>
      let key := xform key
      if hasKey st.1 key then
        .ok (metricsAppend st.1 key ((pyInt? val).getD 0),
             if lineNum = 0 then metaSet st.2 key idx else st.2)
      else .ok st
  | _ => .error "ValueError: too many values to unpack"

/-- `for idx, kv in enumerate(values)`. -/
def process_cells (xform : String → String) (lineNum : Nat) :
    Nat → ParseState → List String → Except String ParseState
  | _, st, [] => .ok st
  | idx, st, kv :: rest =>
      match process_cell xform lineNum idx st kv with
      | .ok st' => process_cells xform lineNum (idx + 1) st' rest
      | .error e => .error e

/-- `parts = line.strip().split(",")`. -/
def cellsOf (line : String) : List String := pySplit ',' (pyStrip line)

/-- One CSV row: the first cell (the timestamp) is dropped
(`values = parts[1:]`), the rest are processed in order. -/
def process_row (xform : String → String) (lineNum : Nat) (st : ParseState)
    (line : String) : Except String ParseState :=
  process_cells xform lineNum 0 st ((cellsOf line).drop 1)

/-- `for line_num, line in enumerate(f)`. -/
def parse_rows (xform : String → String) :
    Nat → ParseState → List String → Except String ParseState
  | _, st, [] => .ok st
  | n, st, l :: rest =>
      match process_row xform n st l with
      | .ok st' => parse_rows xform (n + 1) st' rest
      | .error e => .error e

/-- The common shape of both TX CSV parsers. -/
def parse_pktgen_csv (keys : List String) (xform : String → String)
    (lines : List String) : Except String ParseState :=
  parse_rows xform 0 (metricsInit keys, []) lines

/-- `parse_pktgen_port_rate_csv` over the file's lines. -/
def parse_pktgen_port_rate_csv (lines : List String) : Except String ParseState :=
  parse_pktgen_csv rate_keys id lines

/-- `parse_pktgen_port_stats_csv` over the file's lines. -/
def parse_pktgen_port_stats_csv (lines : List String) : Except String ParseState :=
  parse_pktgen_csv port_keys (fun k => "port_" ++ k) lines

theorem splitOnChar_ne_nil (sep : Char) (cs : List Char) : splitOnChar sep cs ≠ [] := by
  cases cs with
  | nil => simp [splitOnChar]
  | cons c rest =>
    unfold splitOnChar
    split
    · simp
    · cases hsp : splitOnChar sep rest with
      | nil => simp
      | cons h t => simp

theorem pySplit_ne_nil (sep : Char) (s : String) : pySplit sep s ≠ [] := by
  unfold pySplit
  intro h
  exact splitOnChar_ne_nil sep s.data (List.map_eq_nil_iff.mp h)

theorem metricsAppend_fst (m : Metrics) (k : String) (v : Int) :
    (metricsAppend m k v).map Prod.fst = m.map Prod.fst := by
  unfold metricsAppend
  induction m with
  | nil => rfl
  | cons p t ih =>
    simp only [List.map_cons]
    rw [ih]
    congr 1
    split <;> rfl

theorem metricsInit_fst (keys : List String) :
    (metricsInit keys).map Prod.fst = keys := by
  induction keys with
  | nil => rfl
  | cons k t ih =>
    simp only [metricsInit, List.map_cons] at ih ⊢
    simp [ih]

theorem process_cell_one (xform : String → String) (n i : Nat) (st : ParseState)
    (kv a : String) (hs : pySplit '=' kv = [a]) :
    process_cell xform n i st kv = .ok st := by
  unfold process_cell
  rw [hs]

theorem process_cell_two (xform : String → String) (n i : Nat) (st : ParseState)
    (kv key val : String) (hs : pySplit '=' kv = [key, val]) :
    process_cell xform n i st kv =
      if hasKey st.1 (xform key) then
        .ok (metricsAppend st.1 (xform key) ((pyInt? val).getD 0),
             if n = 0 then metaSet st.2 (xform key) i else st.2)
      else .ok st := by
  unfold process_cell
  rw [hs]

theorem process_cell_many (xform : String → String) (n i : Nat) (st : ParseState)
    (kv a b c : String) (t : List String) (hs : pySplit '=' kv = a :: b :: c :: t) :
    process_cell xform n i st kv = .error "ValueError: too many values to unpack" := by
  unfold process_cell
  rw [hs]

theorem process_cell_ok (xform : String → String) (n i : Nat) (st : ParseState)
    (kv : String) (h : (pySplit '=' kv).length ≤ 2) :
    ∃ st', process_cell xform n i st kv = .ok st'
      ∧ st'.1.map Prod.fst = st.1.map Prod.fst := by
  rcases hs : pySplit '=' kv with _ | ⟨a, _ | ⟨b, _ | ⟨c, t⟩⟩⟩
  · exact absurd hs (pySplit_ne_nil _ _)
  · exact ⟨st, process_cell_one xform n i st kv a hs, rfl⟩
  · rw [process_cell_two xform n i st kv a b hs]
    by_cases hk : hasKey st.1 (xform a) = true
    · rw [if_pos hk]
      exact ⟨_, rfl, metricsAppend_fst _ _ _⟩
    · rw [if_neg hk]
      exact ⟨st, rfl, rfl⟩
  · rw [hs] at h
    simp at h

theorem process_cells_ok (xform : String → String) (n : Nat) (cells : List String)
    (h : ∀ kv ∈ cells, (pySplit '=' kv).length ≤ 2) :
    ∀ idx st, ∃ st', process_cells xform n idx st cells = .ok st'
      ∧ st'.1.map Prod.fst = st.1.map Prod.fst := by
  induction cells with
  | nil => exact fun idx st => ⟨st, rfl, rfl⟩
  | cons kv rest ih =>
    intro idx st
    obtain ⟨st1, e1, f1⟩ := process_cell_ok xform n idx st kv (h kv (by simp))
    obtain ⟨st2, e2, f2⟩ := ih (fun c hc => h c (by simp [hc])) (idx + 1) st1
    refine ⟨st2, ?_, f2.trans f1⟩
    unfold process_cells
    rw [e1]
    exact e2

theorem parse_rows_ok (xform : String → String) (lines : List String)
    (h : ∀ l ∈ lines, ∀ kv ∈ (cellsOf l).drop 1, (pySplit '=' kv).length ≤ 2) :
    ∀ n st, ∃ st', parse_rows xform n st lines = .ok st'
      ∧ st'.1.map Prod.fst = st.1.map Prod.fst := by
  induction lines with
  | nil => exact fun n st => ⟨st, rfl, rfl⟩
  | cons l rest ih =>
    intro n st
    obtain ⟨st1, e1, f1⟩ :=
      process_cells_ok xform n ((cellsOf l).drop 1) (h l (by simp)) 0 st
    obtain ⟨st2, e2, f2⟩ := ih (fun l' hl' => h l' (by simp [hl'])) (n + 1) st1
    refine ⟨st2, ?_, f2.trans f1⟩
    unfold parse_rows process_row
    rw [e1]
    exact e2

/-- **C10 counterexample.** A `key=value` cell holding a second `=` makes
the tuple unpack raise `ValueError` outside the `try`, so the parsers are
not total. -/
theorem C10_parser_counterexample :
    parse_pktgen_port_rate_csv ["2025-01-01T00:00:00,pkts_tx=1=2"]
      = .error "ValueError: too many values to unpack"
  ∧ parse_pktgen_port_stats_csv ["2025-01-01T00:00:00,opackets=3=4"]
      = .error "ValueError: too many values to unpack" :=
  ⟨rfl, rfl⟩

/-- **C10 (amended).** On every CSV whose cells split on `=` into at most
two fields, both TX counter parsers succeed and return tables for exactly
their fixed key sets (the 12 rate keys, the 8 `port_`-prefixed keys); a
cell with a second `=` raises `ValueError` instead.  Cell behaviour: a
cell without `=` is ignored, a `key=value` cell with an unrecognised key
is ignored, a recognised key whose value is not an integer contributes `0`
instead of raising, and the first cell of each row (the timestamp) is
always skipped. -/
theorem C10_parsers_amended :
    (∀ lines : List String,
      (∀ l ∈ lines, ∀ kv ∈ (cellsOf l).drop 1, (pySplit '=' kv).length ≤ 2) →
      (∃ st, parse_pktgen_port_rate_csv lines = .ok st
        ∧ st.1.map Prod.fst = rate_keys)
      ∧ (∃ st, parse_pktgen_port_stats_csv lines = .ok st
        ∧ st.1.map Prod.fst = port_keys))
  ∧ (∀ (xform : String → String) (n i : Nat) (st : ParseState) (kv a : String),
      pySplit '=' kv = [a] → process_cell xform n i st kv = .ok st)
  ∧ (∀ (xform : String → String) (n i : Nat) (st : ParseState) (kv key val : String),
      pySplit '=' kv = [key, val] → hasKey st.1 (xform key) = false →
      process_cell xform n i st kv = .ok st)
  ∧ (∀ (xform : String → String) (n i : Nat) (st : ParseState) (kv key val : String),
      pySplit '=' kv = [key, val] → hasKey st.1 (xform key) = true →
      pyInt? val = none →
      process_cell xform n i st kv
        = .ok (metricsAppend st.1 (xform key) 0,
               if n = 0 then metaSet st.2 (xform key) i else st.2))
  ∧ (∀ (xform : String → String) (n : Nat) (st : ParseState) (line c : String)
      (cs : List String), cellsOf line = c :: cs →
      process_row xform n st line = process_cells xform n 0 st cs) := by
  refine ⟨?_, ?_, ?_, ?_, ?_⟩
  · intro lines h
    constructor
    · obtain ⟨st', e, f⟩ := parse_rows_ok id lines h 0 (metricsInit rate_keys, [])
      exact ⟨st', e, by rw [f]; exact metricsInit_fst _⟩
    · obtain ⟨st', e, f⟩ :=
        parse_rows_ok (fun k => "port_" ++ k) lines h 0 (metricsInit port_keys, [])
      exact ⟨st', e, by rw [f]; exact metricsInit_fst _⟩
  · exact process_cell_one
  · intro xform n i st kv key val hs hk
    rw [process_cell_two xform n i st kv key val hs,
      if_neg (by simp [hk] : ¬ hasKey st.1 (xform key) = true)]
  · intro xform n i st kv key val hs hk hv
    rw [process_cell_two xform n i st kv key val hs, if_pos hk, hv]
    rfl
  · intro xform n st line c cs hc
    unfold process_row
    rw [hc]
    rfl

/-- Witness for C10 (amended) at concrete inputs. -/
theorem C10_parsers_amended_witness :
    ((∃ st, parse_pktgen_port_rate_csv
        ["2025-01-01T00:00:00,pkts_tx=7,junk,foo=1,obytes=x"] = .ok st
      ∧ st.1.map Prod.fst = rate_keys)
     ∧ (∃ st, parse_pktgen_port_stats_csv
        ["2025-01-01T00:00:00,pkts_tx=7,junk,foo=1,obytes=x"] = .ok st
      ∧ st.1.map Prod.fst = port_keys))
  ∧ process_cell id 0 0 (metricsInit rate_keys, []) "junk"
      = .ok (metricsInit rate_keys, [])
  ∧ process_cell id 0 1 (metricsInit rate_keys, []) "foo=1"
      = .ok (metricsInit rate_keys, [])
  ∧ process_cell id 0 2 (metricsInit rate_keys, []) "obytes=x"
      = .ok (metricsAppend (metricsInit rate_keys) "obytes" 0,
             metaSet [] "obytes" 2) :=
  ⟨C10_parsers_amended.1 ["2025-01-01T00:00:00,pkts_tx=7,junk,foo=1,obytes=x"] (by decide),
   C10_parsers_amended.2.1 id 0 0 _ "junk" "junk" (by decide),
   C10_parsers_amended.2.2.1 id 0 1 _ "foo=1" "foo" "1" (by decide) (by decide),
   C10_parsers_amended.2.2.2.1 id 0 2 _ "obytes=x" "obytes" "x" (by decide) (by decide)
     (by decide)⟩

end PktGen
